import Mathlib

/-!
Verification of the Zettlr configuration-template generator
(`src/source/app/service-providers/config/get-config-template.ts`) and of the
file/tree item mixin (`src/unnamed/part_000`).

TypeScript string-literal unions are embedded as `String` (so that membership
in the declared closed sets is a real statement, not a typing triviality),
`string|null` becomes `Option String`, numbers become `Nat`, and the host
environment facts the generator reads (OS locale, application version,
platform, installed translations, a BCP-47 parser and one random-UUID draw)
are collected in an explicit `HostEnv` record.
-/

namespace Zettlr

/-- `dialogPaths` group of `ConfigOptions`. -/
structure DialogPaths where
  askFileDialog : String
  askDirDialog : String
  askLangFileDialog : String
  deriving Repr, DecidableEq

/-- `window` group of `ConfigOptions`. `currentSidebarTab` ranges over the
string-literal union `'toc'|'references'|'relatedFiles'|'attachments'`. -/
structure WindowConfig where
  nativeAppearance : Bool
  vibrancy : Bool
  sidebarVisible : Bool
  currentSidebarTab : String
  recentGlobalSearches : List String
  deriving Repr, DecidableEq

/-- `ui` group of `ConfigOptions`: two `[number, number]` split sizes. -/
structure UiConfig where
  fileManagerSplitSize : Nat × Nat
  editorSidebarSplitSize : Nat × Nat
  deriving Repr, DecidableEq

/-- An entry of `export.customCommands`. -/
structure CustomCommand where
  displayName : String
  command : String
  deriving Repr, DecidableEq

/-- `export` group of `ConfigOptions`. -/
structure ExportConfig where
  dir : String
  stripTags : Bool
  stripLinks : String
  cslLibrary : String
  cslStyle : String
  useBundledPandoc : Bool
  singleFileLastExporter : String
  exportQmdWithQuarto : Bool
  customCommands : List CustomCommand
  deriving Repr, DecidableEq

/-- `zkn` group of `ConfigOptions`. -/
structure ZknConfig where
  idRE : String
  idGen : String
  linkFilenameOnly : Bool
  linkWithFilename : String
  linkFormat : String
  autoSearch : Bool
  customDirectory : String
  deriving Repr, DecidableEq

/-- `editor.lint.languageTool.variants`. -/
structure LanguageToolVariants where
  en : String
  de : String
  pt : String
  ca : String
  deriving Repr, DecidableEq

/-- `editor.lint.languageTool`. -/
structure LanguageToolConfig where
  active : Bool
  level : String
  motherTongue : String
  variants : LanguageToolVariants
  provider : String
  customServer : String
  username : String
  apiKey : String
  deriving Repr, DecidableEq

/-- `editor.lint`. -/
structure LintConfig where
  markdown : Bool
  languageTool : LanguageToolConfig
  deriving Repr, DecidableEq

/-- `editor.autoCorrect.magicQuotes`. -/
structure MagicQuotes where
  primary : String
  secondary : String
  deriving Repr, DecidableEq

/-- One `(key, value)` autocorrect replacement pair. -/
structure Replacement where
  key : String
  value : String
  deriving Repr, DecidableEq

/-- `editor.autoCorrect`. -/
structure AutoCorrectConfig where
  active : Bool
  magicQuotes : MagicQuotes
  replacements : List Replacement
  matchWholeWords : Bool
  deriving Repr, DecidableEq

/-- `editor` group of `ConfigOptions`. -/
structure EditorConfig where
  autocompleteSuggestEmojis : Bool
  autoSave : String
  citeStyle : String
  autoCloseBrackets : Bool
  showLinkPreviews : Bool
  showStatusbar : Bool
  showFormattingToolbar : Bool
  showWhitespace : Bool
  defaultSaveImagePath : String
  enableTableHelper : Bool
  indentUnit : Nat
  indentWithTabs : Bool
  fontSize : Nat
  countChars : Bool
  inputMode : String
  boldFormatting : String
  italicFormatting : String
  readabilityAlgorithm : String
  lint : LintConfig
  autoCorrect : AutoCorrectConfig
  deriving Repr, DecidableEq

/-- `display` group of `ConfigOptions`. `theme` ranges over `MarkdownTheme`. -/
structure DisplayConfig where
  theme : String
  hideToolbarInDistractionFree : Bool
  markdownFileExtensions : Bool
  imageWidth : Nat
  imageHeight : Nat
  renderCitations : Bool
  renderIframes : Bool
  renderImages : Bool
  renderLinks : Bool
  renderMath : Bool
  renderTasks : Bool
  renderHTags : Bool
  renderEmphasis : Bool
  deriving Repr, DecidableEq

/-- `watchdog` group of `ConfigOptions`. -/
structure WatchdogConfig where
  activatePolling : Bool
  stabilityThreshold : Nat
  deriving Repr, DecidableEq

/-- `system` group of `ConfigOptions`. -/
structure SystemConfig where
  deleteOnFail : Bool
  leaveAppRunning : Bool
  avoidNewTabs : Bool
  iframeWhitelist : List String
  checkForUpdates : Bool
  zoomBehavior : String
  deriving Repr, DecidableEq

/-- `displayToolbarButtons` group of `ConfigOptions`. -/
structure DisplayToolbarButtons where
  showOpenPreferencesButton : Bool
  showNewFileButton : Bool
  showPreviousFileButton : Bool
  showNextFileButton : Bool
  showToggleReadabilityButton : Bool
  showMarkdownCommentButton : Bool
  showMarkdownLinkButton : Bool
  showMarkdownImageButton : Bool
  showMarkdownMakeTaskListButton : Bool
  showInsertTableButton : Bool
  showInsertFootnoteButton : Bool
  showDocumentInfoText : Bool
  showPomodoroButton : Bool
  deriving Repr, DecidableEq

/-- The `ConfigOptions` interface of `get-config-template.ts`. -/
structure ConfigOptions where
  version : String
  openPaths : List String
  openDirectory : Option String
  dialogPaths : DialogPaths
  window : WindowConfig
  ui : UiConfig
  attachmentExtensions : List String
  darkMode : Bool
  alwaysReloadFiles : Bool
  autoDarkMode : String
  autoDarkModeStart : String
  autoDarkModeEnd : String
  fileMeta : Bool
  fileMetaTime : String
  sorting : String
  sortFoldersFirst : Bool
  muteLines : Bool
  fileManagerMode : String
  fileNameDisplay : String
  newFileNamePattern : String
  newFileDontPrompt : Bool
  «export» : ExportConfig
  zkn : ZknConfig
  editor : EditorConfig
  display : DisplayConfig
  selectedDicts : List String
  appLang : String
  debug : Bool
  watchdog : WatchdogConfig
  system : SystemConfig
  checkForBeta : Bool
  displayToolbarButtons : DisplayToolbarButtons
  uuid : String
  deriving Repr, DecidableEq

/-- The host-environment facts `getConfigTemplate` reads: the OS locale
(`app.getLocale()`), the running application version (`app.getVersion()`),
the platform (`process.platform`), the installed translation tags consulted
by `getLanguageFile`, the result of the third-party BCP-47 parser's
`language` subtag (`bcp47.parse(s).language`, `none` when undefined), and
the value of this invocation's `uuid4()` draw. -/
structure HostEnv where
  hostLocale : String
  appVersion : String
  platform : String
  translations : List String
  parsedLanguage : String → Option String
  uuidValue : String

/-- `ZETTLR_VERSION = app.getVersion()`. -/
def ZETTLR_VERSION (env : HostEnv) : String := env.appVersion

/-- The `ATTACHMENT_EXTENSIONS` constant. -/
def ATTACHMENT_EXTENSIONS : List String := [
  ".pdf", ".odt", ".odp", ".ods",
  ".doc", ".docx", ".xls", ".xlsx", ".ppt", ".pptx",
  ".do", ".r", ".py",
  ".sav", ".zsav", ".csv", ".tsv",
  ".png", ".jpg", ".jpeg", ".gif", ".tiff"]

/-- The language subtag of a BCP-47 tag: the characters before the first
dash (the whole tag when it has no dash). -/
def languageSubtag (tag : String) : String :=
  String.mk (tag.toList.takeWhile (fun c => c != '-'))

/-- Modelled from the spec: the repository module `@common/util/get-language-file`
is not under `src/` (only its caller is). The spec says the locale is matched
"against the set of available translation files", selecting "the closest
available tag (exact match preferred, then language-only match, then
fallback)", with fallback `"en-US"`. Only the returned `.tag` is used by the
caller, so the model returns the tag directly. -/
def getLanguageFile (translations : List String) (locale : String) : String :=
  match translations.find? (fun t => t == locale) with
  | some t => t
  | none =>
    match translations.find? (fun t => languageSubtag t == languageSubtag locale) with
    | some t => t
    | none => "en-US"

/-- The `getConfigTemplate` function, embedded field for field from
`get-config-template.ts`. -/
def getConfigTemplate (env : HostEnv) : ConfigOptions :=
  let locale : String :=
    match env.parsedLanguage env.hostLocale with
    | none => "en-US"
    | some _ => getLanguageFile env.translations env.hostLocale
  { version := ZETTLR_VERSION env
    openPaths := []
    openDirectory := none
    dialogPaths := {
      askFileDialog := ""
      askDirDialog := ""
      askLangFileDialog := "" }
    window := {
      nativeAppearance := env.platform == "darwin"
      vibrancy := env.platform == "darwin"
      sidebarVisible := false
      currentSidebarTab := "toc"
      recentGlobalSearches := [] }
    ui := {
      fileManagerSplitSize := (20, 80)
      editorSidebarSplitSize := (80, 20) }
    attachmentExtensions := ATTACHMENT_EXTENSIONS
    darkMode := false
    alwaysReloadFiles := true
    autoDarkMode := "system"
    autoDarkModeStart := "21:00"
    autoDarkModeEnd := "06:00"
    fileMeta := true
    fileMetaTime := "modtime"
    sorting := "natural"
    sortFoldersFirst := true
    muteLines := true
    fileManagerMode := "combined"
    fileNameDisplay := "title+heading"
    newFileNamePattern := "%id.md"
    newFileDontPrompt := false
    «export» := {
      dir := "temp"
      stripTags := false
      stripLinks := "full"
      cslLibrary := ""
      cslStyle := ""
      useBundledPandoc := true
      exportQmdWithQuarto := false
      singleFileLastExporter := "html"
      customCommands := [] }
    zkn := {
      idRE := "(\\d{14})"
      idGen := "%Y%M%D%h%m%s"
      linkFilenameOnly := false
      linkWithFilename := "never"
      linkFormat := "link|title"
      autoSearch := true
      customDirectory := "" }
    editor := {
      autoSave := "off"
      autocompleteSuggestEmojis := true
      autoCloseBrackets := true
      showLinkPreviews := true
      showWhitespace := false
      defaultSaveImagePath := ""
      citeStyle := "regular"
      enableTableHelper := true
      indentUnit := 4
      indentWithTabs := false
      fontSize := 18
      countChars := false
      inputMode := "default"
      boldFormatting := "**"
      italicFormatting := "_"
      readabilityAlgorithm := "dale-chall"
      showStatusbar := true
      showFormattingToolbar := true
      lint := {
        markdown := true
        languageTool := {
          active := false
          level := "picky"
          motherTongue := ""
          variants := { en := "en-US", de := "de-DE", pt := "pt-PT", ca := "ca-ES" }
          provider := "official"
          customServer := ""
          username := ""
          apiKey := "" } }
      autoCorrect := {
        active := true
        magicQuotes := { primary := "\"…\"", secondary := "\x27…\x27" }
        replacements := [
          { key := "-->", value := "→" },
          { key := "–>", value := "→" },
          { key := "<--", value := "←" },
          { key := "<->", value := "↔" },
          { key := "<-->", value := "↔" },
          { key := "==>", value := "⇒" },
          { key := "<==", value := "⇐" },
          { key := "<=>", value := "⇔" },
          { key := "<==>", value := "⇔" },
          { key := "!=", value := "≠" },
          { key := "<>", value := "≠" },
          { key := "+-", value := "±" },
          { key := ":time:", value := "×" },
          { key := ":division:", value := "÷" },
          { key := "<=", value := "≤" },
          { key := ">=", value := "≥" },
          { key := "1/2", value := "½" },
          { key := "1/3", value := "⅓" },
          { key := "2/3", value := "⅔" },
          { key := "1/4", value := "¼" },
          { key := "3/4", value := "¾" },
          { key := "1/8", value := "⅛" },
          { key := "3/8", value := "⅜" },
          { key := "5/8", value := "⅝" },
          { key := "7/8", value := "⅞" },
          { key := "mm2", value := "mm²" },
          { key := "cm2", value := "cm²" },
          { key := "m2", value := "m²" },
          { key := "km2", value := "km²" },
          { key := "mm3", value := "mm³" },
          { key := "cm3", value := "cm³" },
          { key := "ccm", value := "cm³" },
          { key := "m3", value := "m³" },
          { key := "km3", value := "km³" },
          { key := ":sup2:", value := "²" },
          { key := ":sup3:", value := "³" },
          { key := ":deg:", value := "°" },
          { key := ":eur", value := "€" },
          { key := ":gbp", value := "£" },
          { key := ":yen", value := "¥" },
          { key := ":cent", value := "¢" },
          { key := ":inr:", value := "₹" },
          { key := "(c)", value := "©" },
          { key := "(tm)", value := "™" },
          { key := "(r)", value := "®" },
          { key := "...", value := "…" },
          { key := "--", value := "–" },
          { key := "---", value := "—" }]
        matchWholeWords := false } }
    display := {
      theme := "berlin"
      hideToolbarInDistractionFree := false
      markdownFileExtensions := false
      imageWidth := 100
      imageHeight := 50
      renderCitations := true
      renderIframes := true
      renderImages := true
      renderLinks := true
      renderMath := true
      renderTasks := true
      renderHTags := false
      renderEmphasis := false }
    selectedDicts := []
    appLang := locale
    debug := false
    watchdog := {
      activatePolling := false
      stabilityThreshold := 1000 }
    system := {
      deleteOnFail := false
      leaveAppRunning := false
      avoidNewTabs := false
      iframeWhitelist := ["www.youtube.com", "player.vimeo.com"]
      checkForUpdates := true
      zoomBehavior := "gui" }
    checkForBeta := false
    displayToolbarButtons := {
      showOpenPreferencesButton := true
      showNewFileButton := true
      showPreviousFileButton := true
      showNextFileButton := true
      showToggleReadabilityButton := true
      showMarkdownCommentButton := true
      showMarkdownLinkButton := true
      showMarkdownImageButton := true
      showMarkdownMakeTaskListButton := true
      showInsertTableButton := true
      showInsertFootnoteButton := true
      showDocumentInfoText := true
      showPomodoroButton := true }
    uuid := env.uuidValue }

/-! Item mixin (`src/unnamed/part_000`): shared logic of the TreeItem and
FileItem Vue components. Methods are embedded as functions from the
component's inputs and mutable state to a list of emitted effects paired
with the state after the call. -/

/-- The slice of `this.obj` the modelled methods read. `parent` keeps only the
path, which is all `requestSelection` uses; `dirNotFoundFlag` is compared with
`=== true` in the source, so a missing flag is `false` here. -/
structure FsObject where
  type : String
  path : String
  name : String
  parentPath : Option String
  dirNotFoundFlag : Bool
  deriving Repr, DecidableEq

/-- The triggering DOM event: its `type`, `button` index and `altKey`. -/
structure UiEvent where
  eventType : String
  button : Nat
  altKey : Bool
  deriving Repr, DecidableEq

/-- Mutable component state touched by the modelled methods: the mixin's
`nameEditing` flag plus the tree item's `collapsed`/`hasChildren`. -/
structure ItemState where
  nameEditing : Bool
  collapsed : Bool
  hasChildren : Bool
  deriving Repr, DecidableEq

/-- Read-only context: the `windowId` prop, the store's `lastLeafId`, and
whether `this.selectedDir === this.obj` (JS reference equality, abstracted
to a flag). -/
structure ItemContext where
  windowId : String
  lastLeafId : String
  selectedDirIsObj : Bool
  deriving Repr, DecidableEq

/-- Payload shapes of the IPC messages the mixin sends. -/
inductive IpcPayload where
  | str (s : String)
  | openFileArgs (path : String) (windowId : String) (leafId : String) (newTab : Bool)
  | renameArgs (path : String) (name : String)
  | pathArg (path : String)
  deriving Repr, DecidableEq

/-- Observable effects of a method call, in emission order. -/
inductive Effect where
  | stopPropagation
  | preventDefault
  | ipcInvoke (channel : String) (command : String) (payload : IpcPayload)
  | ipcSend (channel : String) (command : String) (payload : IpcPayload)
  | toggleFileList
  deriving Repr, DecidableEq

/-- Whether an effect is an inter-process message (`ipcRenderer.invoke` or
`ipcRenderer.send`). -/
def Effect.isIpc : Effect → Bool
  | .ipcInvoke _ _ _ => true
  | .ipcSend _ _ _ => true
  | _ => false

/-- The mixin's `requestSelection` method. -/
def requestSelection (ctx : ItemContext) (st : ItemState) (obj : FsObject)
    (event : UiEvent) : List Effect × ItemState :=
  if obj.dirNotFoundFlag then
    ([Effect.stopPropagation], st)
  else if event.button == 2 then
    ([], st)
  else
    let middleClick := event.eventType == "auxclick" && event.button == 1
    let alt := event.altKey
    let type := obj.type
    let pre : List Effect := if middleClick then [Effect.preventDefault] else []
    if type == "file" || type == "code" then
      (pre ++ [Effect.ipcInvoke "documents-provider" "open-file"
        (IpcPayload.openFileArgs obj.path ctx.windowId ctx.lastLeafId
          (middleClick || (alt && type == "file")))], st)
    else if alt && obj.parentPath.isSome then
      (pre ++ [Effect.ipcInvoke "application" "set-open-directory"
        (IpcPayload.str (obj.parentPath.getD ""))], st)
    else if type == "directory" then
      let fx : List Effect :=
        if ctx.selectedDirIsObj then [Effect.toggleFileList]
        else [Effect.ipcInvoke "application" "set-open-directory"
          (IpcPayload.str obj.path)]
      let st' := if st.hasChildren then { st with collapsed := st.collapsed == false } else st
      (pre ++ fx, st')
    else
      (pre, st)

/-- The mixin's `finishNameEditing` method. -/
def finishNameEditing (st : ItemState) (obj : FsObject) (newName : String) :
    List Effect × ItemState :=
  if newName == obj.name then
    ([], st)
  else
    let command := if obj.type == "directory" then "dir-rename" else "file-rename"
    ([Effect.ipcInvoke "application" command (IpcPayload.renameArgs obj.path newName)],
      { st with nameEditing := false })

/-! Auxiliary definitions for the theorems below. -/

/-- A `ConfigOptions` record with its `uuid` field cleared, used to state
"structurally identical except for the `uuid` field". -/
def eraseUuid (c : ConfigOptions) : ConfigOptions := { c with uuid := "" }

/-- Projection of a config onto its host-independent part: `version`,
`appLang`, `uuid` and the platform-dependent `window.nativeAppearance` and
`window.vibrancy` are normalised away. -/
def constantPart (c : ConfigOptions) : ConfigOptions :=
  { c with
    version := ""
    appLang := ""
    uuid := ""
    window := { c.window with nativeAppearance := false, vibrancy := false } }

/-- A host whose locale does not parse (the BCP-47 `language` subtag is
undefined). -/
def unparseableEnv : HostEnv :=
  { hostLocale := "x-pirate"
    appVersion := "3.0.0"
    platform := "linux"
    translations := ["en-US", "de-DE"]
    parsedLanguage := fun _ => none
    uuidValue := "u0" }

/-- A host whose locale parses and is itself an installed translation. -/
def matchedEnv : HostEnv :=
  { hostLocale := "de-DE"
    appVersion := "3.0.0"
    platform := "win32"
    translations := ["en-US", "de-DE"]
    parsedLanguage := fun _ => some "de"
    uuidValue := "u0" }

/-- A host whose locale parses and is not installed itself, but shares its
language subtag with an installed translation. -/
def languageOnlyEnv : HostEnv :=
  { hostLocale := "de-AT"
    appVersion := "3.0.0"
    platform := "linux"
    translations := ["en-US", "de-DE"]
    parsedLanguage := fun _ => some "de"
    uuidValue := "u0" }

/-- A macOS host. -/
def darwinEnv : HostEnv :=
  { hostLocale := "en-US"
    appVersion := "3.0.0"
    platform := "darwin"
    translations := ["en-US"]
    parsedLanguage := fun _ => some "en"
    uuidValue := "u1" }

/-- The same host as `darwinEnv` on Linux. -/
def linuxEnv : HostEnv := { darwinEnv with platform := "linux" }

/-- A directory object whose backing directory was not found on disk. -/
def deadDirObj : FsObject :=
  { type := "directory"
    path := "/workspace/gone"
    name := "gone"
    parentPath := some "/workspace"
    dirNotFoundFlag := true }

/-- A file object named `notes.md`. -/
def notesFileObj : FsObject :=
  { type := "file"
    path := "/workspace/notes.md"
    name := "notes.md"
    parentPath := some "/workspace"
    dirNotFoundFlag := false }

/-- A live directory object named `drafts`. -/
def draftsDirObj : FsObject :=
  { type := "directory"
    path := "/workspace/drafts"
    name := "drafts"
    parentPath := some "/workspace"
    dirNotFoundFlag := false }

/-- A sample read-only component context. -/
def ctx0 : ItemContext :=
  { windowId := "w1", lastLeafId := "leaf1", selectedDirIsObj := false }

/-- A sample component state. -/
def st0 : ItemState :=
  { nameEditing := true, collapsed := true, hasChildren := true }

/-- A plain left click. -/
def clickEvent : UiEvent :=
  { eventType := "click", button := 0, altKey := false }

/-- Exact-match step of the spec-modelled `getLanguageFile`: a locale that is
itself an installed translation tag is returned unchanged. -/
theorem getLanguageFile_exact (translations : List String) (locale : String)
    (h : locale ∈ translations) :
    getLanguageFile translations locale = locale := by
  unfold getLanguageFile
  cases hf : translations.find? (fun t => t == locale) with
  | some t =>
    have ht := List.find?_some hf
    have : t = locale := by simpa using ht
    simp [this]
  | none =>
    exfalso
    have := List.find?_eq_none.mp hf locale h
    simp at this

/-- When a locale is not installed, the first translation-tag search of
`getLanguageFile` comes up empty. -/
theorem find_exact_eq_none (translations : List String) (locale : String)
    (hne : locale ∉ translations) :
    translations.find? (fun u => u == locale) = none := by
  rw [List.find?_eq_none]
  intro u hu
  simp only [beq_iff_eq]
  exact fun he => hne (he ▸ hu)

/-- Language-only step of the spec-modelled `getLanguageFile`: when the
locale is not itself installed but some installed tag shares its language
subtag, the first such tag is returned; that tag is installed and has the
locale's language subtag. -/
theorem getLanguageFile_language_match (translations : List String)
    (locale t : String) (hne : locale ∉ translations)
    (hf : translations.find?
      (fun u => languageSubtag u == languageSubtag locale) = some t) :
    getLanguageFile translations locale = t ∧ t ∈ translations ∧
      languageSubtag t = languageSubtag locale := by
  refine ⟨?_, List.mem_of_find?_eq_some hf, by simpa using List.find?_some hf⟩
  unfold getLanguageFile
  rw [find_exact_eq_none translations locale hne, hf]

/-- Fallback step of the spec-modelled `getLanguageFile`: when neither an
exact nor a language-only match exists, the fallback `"en-US"` is returned. -/
theorem getLanguageFile_no_match (translations : List String) (locale : String)
    (hne : locale ∉ translations)
    (hf : translations.find?
      (fun u => languageSubtag u == languageSubtag locale) = none) :
    getLanguageFile translations locale = "en-US" := by
  unfold getLanguageFile
  rw [find_exact_eq_none translations locale hne, hf]

/-! Claim theorems. -/

/-- C1: for every host locale whose BCP-47 `language` subtag is undefined (or
that is unparseable, in which case the parser yields no `language`),
`getConfigTemplate` surfaces no error — it is a total function into
`ConfigOptions` — and the returned `appLang` is the literal `"en-US"`. -/
theorem appLang_fallback_on_unparseable_locale (env : HostEnv)
    (h : env.parsedLanguage env.hostLocale = none) :
    (getConfigTemplate env).appLang = "en-US" := by
  simp [getConfigTemplate, h]

/-- Witness for C1 at a concrete unparseable host locale. -/
theorem appLang_fallback_on_unparseable_locale_witness :
    unparseableEnv.parsedLanguage unparseableEnv.hostLocale = none ∧
    (getConfigTemplate unparseableEnv).appLang = "en-US" :=
  ⟨rfl, appLang_fallback_on_unparseable_locale unparseableEnv rfl⟩

/-- C2: for a fixed host environment (same locale, version, platform and
installed translations), two invocations of `getConfigTemplate` — which can
differ only in their random UUID draw — return structurally identical
records once the `uuid` field is disregarded. -/
theorem getConfigTemplate_deterministic_except_uuid (env : HostEnv)
    (u1 u2 : String) :
    eraseUuid (getConfigTemplate { env with uuidValue := u1 }) =
      eraseUuid (getConfigTemplate { env with uuidValue := u2 }) := rfl

/-- C3 counterexample: the `window` field is not a fixed literal constant
across operating-system platforms — `window.nativeAppearance` (and likewise
`window.vibrancy`) is `true` on darwin and `false` on linux, so two host
environments differing only in platform disagree on a field other than
`version`, `appLang` and `uuid`. -/
theorem window_fields_platform_dependent :
    (getConfigTemplate darwinEnv).window.nativeAppearance = true ∧
    (getConfigTemplate linuxEnv).window.nativeAppearance = false ∧
    (getConfigTemplate darwinEnv).window ≠ (getConfigTemplate linuxEnv).window := by
  refine ⟨by decide, by decide, by decide⟩

/-- C3 amended: every field other than `version`, `appLang`, `uuid` and the
two platform-dependent window flags `window.nativeAppearance` and
`window.vibrancy` is a fixed literal constant — equal across any two host
environments. -/
theorem constant_fields_host_independent (e1 e2 : HostEnv) :
    constantPart (getConfigTemplate e1) = constantPart (getConfigTemplate e2) := rfl

/-- C4: the `version` field of the returned record equals the running
application's version string (`ZETTLR_VERSION = app.getVersion()`) of the
generating invocation's host environment. -/
theorem version_eq_appVersion (env : HostEnv) :
    (getConfigTemplate env).version = env.appVersion := rfl

/-- C6: when the host locale parses with a defined language subtag,
`appLang` follows the spec-modelled matching order of `getLanguageFile`:
an installed locale is returned itself (exact match preferred); otherwise
the first installed tag sharing its language subtag is returned
(language-only match); otherwise the fallback `"en-US"`. -/
theorem appLang_matches_installed_translation (env : HostEnv) (lang : String)
    (hp : env.parsedLanguage env.hostLocale = some lang) :
    (env.hostLocale ∈ env.translations →
      (getConfigTemplate env).appLang = env.hostLocale) ∧
    (env.hostLocale ∉ env.translations →
      ∀ t, env.translations.find?
          (fun u => languageSubtag u == languageSubtag env.hostLocale) = some t →
        (getConfigTemplate env).appLang = t ∧ t ∈ env.translations ∧
        languageSubtag t = languageSubtag env.hostLocale) ∧
    (env.hostLocale ∉ env.translations →
      env.translations.find?
          (fun u => languageSubtag u == languageSubtag env.hostLocale) = none →
        (getConfigTemplate env).appLang = "en-US") := by
  have ha : (getConfigTemplate env).appLang =
      getLanguageFile env.translations env.hostLocale := by
    simp [getConfigTemplate, hp]
  refine ⟨?_, ?_, ?_⟩
  · intro hm
    rw [ha]
    exact getLanguageFile_exact env.translations env.hostLocale hm
  · intro hne t hf
    obtain ⟨h1, h2, h3⟩ :=
      getLanguageFile_language_match env.translations env.hostLocale t hne hf
    exact ⟨ha.trans h1, h2, h3⟩
  · intro hne hf
    rw [ha]
    exact getLanguageFile_no_match env.translations env.hostLocale hne hf

/-- Witness for C6: an exact match (`de-DE` against installed `de-DE`) and a
language-only match (`de-AT` resolving to the installed `de-DE`). -/
theorem appLang_matches_installed_translation_witness :
    (matchedEnv.parsedLanguage matchedEnv.hostLocale = some "de" ∧
      matchedEnv.hostLocale ∈ matchedEnv.translations ∧
      (getConfigTemplate matchedEnv).appLang = matchedEnv.hostLocale) ∧
    (languageOnlyEnv.parsedLanguage languageOnlyEnv.hostLocale = some "de" ∧
      languageOnlyEnv.hostLocale ∉ languageOnlyEnv.translations ∧
      languageOnlyEnv.translations.find?
        (fun u => languageSubtag u == languageSubtag languageOnlyEnv.hostLocale) =
        some "de-DE" ∧
      (getConfigTemplate languageOnlyEnv).appLang = "de-DE") := by
  have h1 := (appLang_matches_installed_translation matchedEnv "de" rfl).1 (by decide)
  have h2 := ((appLang_matches_installed_translation languageOnlyEnv "de" rfl).2.1
    (by decide) "de-DE" (by decide)).1
  exact ⟨⟨rfl, by decide, h1⟩, ⟨rfl, by decide, by decide, h2⟩⟩

/-- C7: every enumerated field's default value lies in its declared closed
string-literal set; in particular `sorting`, `autoDarkMode` and
`fileManagerMode`. -/
theorem enumerated_defaults_in_closed_sets (env : HostEnv) :
    (getConfigTemplate env).sorting ∈ ["natural", "ascii"] ∧
    (getConfigTemplate env).autoDarkMode ∈ ["off", "system", "schedule", "auto"] ∧
    (getConfigTemplate env).fileManagerMode ∈ ["thin", "combined", "expanded"] ∧
    (getConfigTemplate env).window.currentSidebarTab ∈
      ["toc", "references", "relatedFiles", "attachments"] ∧
    (getConfigTemplate env).fileMetaTime ∈ ["modtime", "creationtime"] ∧
    (getConfigTemplate env).fileNameDisplay ∈
      ["filename", "title", "heading", "title+heading"] ∧
    (getConfigTemplate env).«export».dir ∈ ["temp", "cwd", "ask"] ∧
    (getConfigTemplate env).«export».stripLinks ∈ ["full", "unlink", "no"] ∧
    (getConfigTemplate env).zkn.linkWithFilename ∈ ["always", "never", "withID"] ∧
    (getConfigTemplate env).zkn.linkFormat ∈ ["link|title", "title|link"] ∧
    (getConfigTemplate env).editor.autoSave ∈ ["off", "immediately", "delayed"] ∧
    (getConfigTemplate env).editor.citeStyle ∈
      ["in-text", "in-text-suffix", "regular"] ∧
    (getConfigTemplate env).editor.inputMode ∈ ["default", "vim", "emacs"] ∧
    (getConfigTemplate env).editor.boldFormatting ∈ ["**", "__"] ∧
    (getConfigTemplate env).editor.italicFormatting ∈ ["_", "*"] ∧
    (getConfigTemplate env).editor.readabilityAlgorithm ∈
      ["dale-chall", "gunning-fog", "coleman-liau", "automated-readability"] ∧
    (getConfigTemplate env).editor.lint.languageTool.level ∈ ["picky", "default"] ∧
    (getConfigTemplate env).editor.lint.languageTool.provider ∈
      ["official", "custom"] ∧
    (getConfigTemplate env).display.theme ∈
      ["berlin", "frankfurt", "bielefeld", "karl-marx-stadt", "bordeaux"] ∧
    (getConfigTemplate env).system.zoomBehavior ∈ ["gui", "editor"] := by
  refine ⟨?_, ?_, ?_, ?_, ?_, ?_, ?_, ?_, ?_, ?_, ?_, ?_, ?_, ?_, ?_, ?_, ?_,
    ?_, ?_, ?_⟩ <;> simp [getConfigTemplate]

/-- C8: the `attachmentExtensions` list of the returned record — the constant
`ATTACHMENT_EXTENSIONS` — has pairwise distinct entries. -/
theorem attachmentExtensions_nodup (env : HostEnv) :
    (getConfigTemplate env).attachmentExtensions.Nodup := by
  have h : (getConfigTemplate env).attachmentExtensions = ATTACHMENT_EXTENSIONS := rfl
  rw [h]
  decide

/-- C9: when the item's `dirNotFoundFlag` is set, `requestSelection` only
stops the event's propagation: it emits no inter-process message and leaves
the component state unchanged. -/
theorem requestSelection_dead_directory (ctx : ItemContext) (st : ItemState)
    (obj : FsObject) (event : UiEvent) (h : obj.dirNotFoundFlag = true) :
    (requestSelection ctx st obj event).1 = [Effect.stopPropagation] ∧
    (∀ e ∈ (requestSelection ctx st obj event).1, e.isIpc = false) ∧
    (requestSelection ctx st obj event).2 = st := by
  simp [requestSelection, h, Effect.isIpc]

/-- Witness for C9 at a concrete dead directory and click event. -/
theorem requestSelection_dead_directory_witness :
    deadDirObj.dirNotFoundFlag = true ∧
    (requestSelection ctx0 st0 deadDirObj clickEvent).1 = [Effect.stopPropagation] ∧
    (∀ e ∈ (requestSelection ctx0 st0 deadDirObj clickEvent).1, e.isIpc = false) ∧
    (requestSelection ctx0 st0 deadDirObj clickEvent).2 = st0 := by
  have h := requestSelection_dead_directory ctx0 st0 deadDirObj clickEvent rfl
  exact ⟨rfl, h.1, h.2.1, h.2.2⟩

/-- C10: if `newName` equals the item's current name, `finishNameEditing`
sends nothing and leaves `nameEditing` unchanged; otherwise it sends exactly
one rename command over the `application` channel — `dir-rename` for a
directory, `file-rename` otherwise — and sets `nameEditing` to `false`. -/
theorem finishNameEditing_rename_protocol (st : ItemState) (obj : FsObject)
    (newName : String) :
    (newName = obj.name →
      (finishNameEditing st obj newName).1 = [] ∧
      ((finishNameEditing st obj newName).2).nameEditing = st.nameEditing) ∧
    (newName ≠ obj.name →
      (finishNameEditing st obj newName).1 =
        [Effect.ipcInvoke "application"
          (if obj.type == "directory" then "dir-rename" else "file-rename")
          (IpcPayload.renameArgs obj.path newName)] ∧
      ((finishNameEditing st obj newName).2).nameEditing = false) := by
  constructor
  · intro h
    simp [finishNameEditing, h]
  · intro h
    simp [finishNameEditing, h]

/-- Witness for C10: an unchanged file name sends nothing, a changed
directory name sends exactly one `dir-rename`. -/
theorem finishNameEditing_rename_protocol_witness :
    (finishNameEditing st0 notesFileObj "notes.md").1 = [] ∧
    ((finishNameEditing st0 notesFileObj "notes.md").2).nameEditing = st0.nameEditing ∧
    (finishNameEditing st0 draftsDirObj "essays").1 =
      [Effect.ipcInvoke "application" "dir-rename"
        (IpcPayload.renameArgs draftsDirObj.path "essays")] ∧
    ((finishNameEditing st0 draftsDirObj "essays").2).nameEditing = false := by
  have h1 := (finishNameEditing_rename_protocol st0 notesFileObj "notes.md").1 rfl
  have h2 := (finishNameEditing_rename_protocol st0 draftsDirObj "essays").2 (by decide)
  exact ⟨h1.1, h1.2, h2.1, h2.2⟩

end Zettlr
